import Mathlib

/-!
Verification development for the whatsapp-linking-service repository.

The repository contains two parallel server implementations:
* `src/server.js` — Baileys-based: global `clients` / `sessions` maps, a
  websocket connection handler, `handleClientMessage`, `processStatusMessage`,
  a `messages.upsert` fan-out and a periodic cleanup interval (the reaper);
* `src/status-manager.js` and `src/whatsapp-client.js` — whatsapp-web.js-based:
  `handleClientMessage`, `refreshStatuses`, `downloadAndSendMedia`,
  `generateAndSendThumbnail`, `monitorStatusUpdates`.

Both are embedded shallowly below. JavaScript `Map` objects become insertion
ordered association lists, `Date.now()` becomes an explicit `now : Int`
parameter (epoch milliseconds), async provider calls become oracle function
fields, and thrown exceptions become `Except String`.
-/

namespace WL

/-- Insertion-ordered association list lookup, embedding `Map.get`. -/
def mapGet (m : List (String × α)) (k : String) : Option α :=
  (m.find? (fun p => p.1 == k)).map Prod.snd

/-- Embedding of `Map.set`: updates the existing entry in place, else appends. -/
def mapSet (m : List (String × α)) (k : String) (v : α) : List (String × α) :=
  if m.any (fun p => p.1 == k) then
    m.map (fun p => if p.1 == k then (k, v) else p)
  else m ++ [(k, v)]

/-- Embedding of `Map.delete`. -/
def mapDelete (m : List (String × α)) (k : String) : List (String × α) :=
  m.filter (fun p => p.1 != k)

/-- Embedding of `Map.has`. -/
def mapHas (m : List (String × α)) (k : String) : Bool :=
  m.any (fun p => p.1 == k)

/-- A client record in the `clients` map of `src/server.js`:
`clients.set(clientId, { ws, sessionId, lastActivity })`.
`ws = none` embeds a `null` transport reference (cleared on socket close);
`ws = some b` embeds a present websocket object with
`b = (readyState === WebSocket.OPEN)`. -/
structure Conn where
  ws : Option Bool
  sessionId : Option String
  lastActivity : Int
deriving DecidableEq, Repr

/-- A session record in the `sessions` map of `src/server.js`:
`sessions.set(sessionId, { socket, startTime })`. The Baileys socket is
identified by the serial number of its construction. -/
structure SessionRec where
  adapterId : Nat
  startTime : Int
deriving DecidableEq, Repr

/-- The in-memory state of `src/server.js`: the two global maps. -/
structure ServerState where
  clients : List (String × Conn)
  sessions : List (String × SessionRec)
deriving DecidableEq, Repr

/-- A status item as built by `processStatusMessage` carries its `timestamp`
either as a JS `Date` object (serialized by `JSON.stringify` as an ISO-8601
string) or as a plain integer of epoch milliseconds. -/
inductive WireTS where
  | intMillis (n : Int)
  | isoDateString (millisSinceEpoch : Int)
deriving DecidableEq, Repr

/-- Wire shape of the status items produced by `src/server.js`
`processStatusMessage` (note the extra `content` field). -/
structure ServerStatusItem where
  id : String
  timestamp : WireTS
  is_video : Bool
  thumbnail_url : String
  media_url : String
  author : String
  content : String
deriving DecidableEq, Repr

/-- Wire shape of the status items produced by the whatsapp-web.js mapping in
`src/status-manager.js` / `src/whatsapp-client.js`. -/
structure SMStatusItem where
  id : String
  timestamp : Int
  is_video : Bool
  thumbnail_url : String
  media_url : String
  author : String
deriving DecidableEq, Repr

/-- Server-to-client events, one constructor per `JSON.stringify` send site. -/
inductive OutEvent where
  | qrCodeStatus (status : String) (data : Option String) (message : String)
  | connectionSuccess (sessionId : String) (message : String)
  | statusUpdate (statuses : List ServerStatusItem)
  | smStatusUpdate (statuses : List SMStatusItem)
  | mediaData (statusId : String) (data : String) (mimeType : String)
  | thumbnailData (statusId : String) (data : String) (mimeType : String)
  | statusFetchStart (message : String)
  | info (message : String)
  | disconnected (message : String)
  | error (code : String) (message : String)
deriving DecidableEq, Repr

/-- The key of a Baileys message (`msg.key`). -/
structure BMsgKey where
  id : String
  remoteJid : Option String
  participant : Option String
deriving DecidableEq, Repr

/-- Payload variants of `msg.message` that `processStatusMessage` inspects. -/
inductive BPayload where
  | imageMessage (caption : Option String) (mimetype : String)
  | videoMessage (caption : Option String) (mimetype : String)
      (jpegThumbnail : Option String)
  | conversation (text : String)
  | otherPayload
deriving DecidableEq, Repr

/-- A Baileys message as consumed by `processStatusMessage` and the
`messages.upsert` handler. `message = none` embeds a missing `msg.message`;
`messageTimestamp` is in epoch seconds as delivered by the provider. -/
structure BMsg where
  key : BMsgKey
  message : Option BPayload
  messageTimestamp : Option Int
deriving DecidableEq, Repr

/-- Contact info returned by `socket.getContactInfo`. -/
structure ContactInfo where
  name : Option String
  verifiedName : Option String
deriving Repr

/-- Oracles for the async Baileys calls made by `processStatusMessage`:
`downloadMediaMessage` (`none` embeds a download error, `some s` a base64
payload) and `getContactInfo` (`none` embeds a thrown lookup error). -/
structure BaileysOps where
  downloadMediaMessage : BMsg → Option String
  getContactInfo : String → Option ContactInfo

/-- The `sender.split('@')[0]` expression of `processStatusMessage`. -/
def senderLocalPart (sender : String) : String :=
  ((sender.splitOn "@").headD "")

/-- The timestamp expression of `processStatusMessage`:
`msg.messageTimestamp ? new Date(msg.messageTimestamp * 1000) : new Date()`.
Either way the field holds a JS `Date` object, which `JSON.stringify`
serializes as an ISO-8601 string. -/
def serverTimestamp (mts : Option Int) (now : Int) : WireTS :=
  match mts with
  | some t => .isoDateString (t * 1000)
  | none => .isoDateString now

/-- Tests whether a wire timestamp is a plain integer of epoch
milliseconds. -/
def isEpochMillisInt : WireTS → Bool
  | .intMillis _ => true
  | .isoDateString _ => false

/-- Embedding of `processStatusMessage` from `src/server.js` (lines 154-224).
`now` is the value of `new Date()` at the call, in epoch milliseconds. -/
def processStatusMessage (ops : BaileysOps) (msg : BMsg) (now : Int) :
    ServerStatusItem :=
  let sender := (msg.key.participant.orElse (fun _ => msg.key.remoteJid)).getD ""
  let senderName := senderLocalPart sender
  let f : Bool × String × String × String :=
    match msg.message with
    | some (.imageMessage caption mimetype) =>
      match ops.downloadMediaMessage msg with
      | some media =>
        let u := "data:" ++ mimetype ++ ";base64," ++ media
        (false, caption.getD "", u, u)
      | none => (false, caption.getD "", "", "")
    | some (.videoMessage caption mimetype jpegThumbnail) =>
      match ops.downloadMediaMessage msg with
      | some media =>
        let u := "data:" ++ mimetype ++ ";base64," ++ media
        let t :=
          match jpegThumbnail with
          | some th => "data:image/jpeg;base64," ++ th
          | none => "data:image/png;base64,iVBORw0KGgoAAAANSUhEUgAAAAEAAAABCAQAAAC1HAwCAAAAC0lEQVR42mNkYAAAAAYAAjCB0C8AAAAASUVORK5CYII="
        (true, caption.getD "", u, t)
      | none => (true, caption.getD "", "", "")
    | some (.conversation text) => (false, text, "", "")
    | _ => (false, "", "", "")
  let author :=
    match ops.getContactInfo sender with
    | some ci => ((ci.name.orElse (fun _ => ci.verifiedName)).getD senderName)
    | none => senderName
  { id := msg.key.id
    timestamp := serverTimestamp msg.messageTimestamp now
    is_video := f.1
    thumbnail_url := f.2.2.2
    media_url := f.2.2.1
    author := author
    content := f.2.1 }

/-- Embedding of the `messages.upsert` handler of `src/server.js`
(lines 105-122) for an upsert of type `notify` on the session `sessionId`.
Returns the `(recipient key, event)` pairs sent: for each status-broadcast
message the handler looks up `clients.get(sessionId)` and sends the
`status_update` there when that record exists with an OPEN websocket. -/
def messagesUpsertNotify (ops : BaileysOps) (st : ServerState)
    (sessionId : String) (msgs : List BMsg) (now : Int) :
    List (String × OutEvent) :=
  msgs.foldl (fun acc msg =>
    if msg.message.isSome ∧ msg.key.remoteJid = some "status@broadcast" then
      let statusContent := processStatusMessage ops msg now
      match mapGet st.clients sessionId with
      | some client =>
        if client.ws = some true then
          acc ++ [(sessionId, .statusUpdate [statusContent])]
        else acc
      | none => acc
    else acc) []

/-- The client ids whose records are bound to `sessionId` and hold a live
(present and OPEN) transport. -/
def liveBoundTo (st : ServerState) (sessionId : String) : List String :=
  (st.clients.filter
    (fun p => p.2.sessionId == some sessionId && p.2.ws == some true)).map
    Prod.fst

/-- Embedding of `fetchCurrentStatuses` from `src/server.js` (lines 409-444):
looks the requester up in `clients` and, when its websocket is present and
OPEN, sends `status_fetch_start` followed by `info`. The function body cannot
throw, so the catch branch (`STATUS_FETCH_ERROR`) is unreachable. -/
def fetchCurrentStatuses (st : ServerState) (clientId : String) :
    List (String × OutEvent) :=
  match mapGet st.clients clientId with
  | some client =>
    if client.ws = some true then
      [(clientId, .statusFetchStart "Fetching recent statuses..."),
       (clientId, .info "Status updates will appear here when contacts post new statuses")]
    else []
  | none => []

/-- An inbound client message as read by the `switch (type)` dispatch:
the `type` string plus the optional `status_id` field. -/
structure ClientMsg where
  mtype : String
  statusId : Option String := none
deriving DecidableEq, Repr

/-- Embedding of `handleClientMessage` from `src/server.js` (lines 331-406).
Returns the new state and the `(recipient, event)` sends, every send going to
the requester's websocket `ws`. The Baileys socket of the bound session is
present exactly when `client.sessionId` names an entry of `sessions`. -/
def handleClientMessage (st : ServerState) (clientId : String)
    (data : ClientMsg) : ServerState × List (String × OutEvent) :=
  match mapGet st.clients clientId with
  | none => (st, [])
  | some client =>
    let sessionId := client.sessionId
    let sessionData := match sessionId with
      | some sid => mapGet st.sessions sid
      | none => none
    let haveSocket := sessionData.isSome
    if data.mtype = "heartbeat" then (st, [])
    else if data.mtype = "request_status_updates" then
      if haveSocket then (st, fetchCurrentStatuses st clientId)
      else (st, [(clientId, .error "NO_SESSION" "No active WhatsApp session")])
    else if data.mtype = "request_media" then
      if haveSocket then
        (st, [(clientId, .error "NOT_IMPLEMENTED"
          "Individual media requests not yet implemented")])
      else (st, [(clientId, .error "NO_SESSION" "No active WhatsApp session")])
    else if data.mtype = "disconnect" then
      if haveSocket then
        ({ st with sessions := mapDelete st.sessions (sessionId.getD "") },
         [(clientId, .disconnected "Logged out from WhatsApp")])
      else (st, [])
    else (st, [])

/-- An inbound websocket frame: either text that fails `JSON.parse` (with the
parse error message) or a parsed message object. -/
inductive Frame where
  | malformed (errMessage : String)
  | wellFormed (data : ClientMsg)
deriving DecidableEq, Repr

/-- Embedding of the `ws.on('message')` handler from `src/server.js`
(lines 297-317). On a parse failure the catch branch replies with
`MESSAGE_ERROR`; otherwise `lastActivity` is refreshed and the message is
dispatched. The returned `Bool` records whether the handler leaves the
connection open (no handler path ever closes it). -/
def wsOnMessage (st : ServerState) (clientId : String) (f : Frame)
    (now : Int) : ServerState × List (String × OutEvent) × Bool :=
  match f with
  | .malformed errMessage =>
    (st, [(clientId, .error "MESSAGE_ERROR"
      ("Error processing message: " ++ errMessage))], true)
  | .wellFormed data =>
    let st' :=
      match mapGet st.clients clientId with
      | some client =>
        { st with clients :=
            mapSet st.clients clientId ({ client with lastActivity := now }) }
      | none => st
    let r := handleClientMessage st' clientId data
    (r.1, r.2, true)

/-- Embedding of the `ws.on('close')` handler from `src/server.js`
(lines 320-327): the record survives with its `sessionId`; only the
transport reference is nulled. -/
def wsClose (st : ServerState) (clientId : String) : ServerState :=
  match mapGet st.clients clientId with
  | some client =>
    { st with clients :=
        mapSet st.clients clientId ({ client with ws := none }) }
  | none => st

/-- Embedding of the `wss.on('connection')` handler from `src/server.js`
(lines 227-294), up to and including its synchronous part. The new record is
stored with a live OPEN websocket. When `session_id` was supplied and is
registered, the reconnection path runs: `connection_success` plus the
`fetchCurrentStatuses` sends, and no session creation. Otherwise the
new-session path spawns `startWhatsAppSession`; the returned `Option String`
is the session id whose creation was spawned (`none` on the reconnect path). -/
def wsConnection (st : ServerState) (clientId : String)
    (existingSessionId : Option String) (freshUuid : String) (now : Int) :
    ServerState × List (String × OutEvent) × Option String :=
  let rec0 : Conn :=
    { ws := some true, sessionId := existingSessionId, lastActivity := now }
  let st1 := { st with clients := mapSet st.clients clientId rec0 }
  match existingSessionId with
  | some sid =>
    if mapHas st1.sessions sid then
      (st1,
       [(clientId, .connectionSuccess sid "Reconnected to existing session")]
         ++ fetchCurrentStatuses st1 clientId,
       none)
    else
      let rec1 : Conn :=
        { ws := some true, sessionId := some sid, lastActivity := now }
      let st2 := { st1 with clients := mapSet st1.clients clientId rec1 }
      (st2, [], some sid)
  | none =>
    let rec2 : Conn :=
      { ws := some true, sessionId := some freshUuid, lastActivity := now }
    let st2 := { st1 with clients := mapSet st1.clients clientId rec2 }
    (st2, [], some freshUuid)

/-- The `inactiveTimeout` of the cleanup interval in `src/server.js`:
one hour in milliseconds. -/
def inactiveTimeout : Int := 1000 * 60 * 60

/-- Embedding of the periodic cleanup callback of `src/server.js`
(lines 447-457): deletes every client whose websocket reference is absent and
whose inactivity exceeds the timeout. The `sessions` map is not touched. -/
def reaperSweep (st : ServerState) (now : Int) : ServerState :=
  let keep : String × Conn → Bool :=
    fun p => ¬ (p.2.ws = none ∧ now - p.2.lastActivity > inactiveTimeout)
  { st with clients := st.clients.filter keep }

/-- State of the session-creation race: the ids registered in `sessions`, the
spawned `startWhatsAppSession` calls that have not yet reached
`sessions.set`, and how many Baileys sockets have been constructed. -/
structure CreateRace where
  registered : List String
  pendingCreates : List String
  adaptersConstructed : Nat
deriving DecidableEq, Repr

/-- A connection arrival carrying `session_id = sid`: the handler checks
`sessions.has(sid)` synchronously (lines 256, 276-294 of `src/server.js`) and,
when absent, calls `startWhatsAppSession(sid, ...)` without awaiting it. -/
def arriveWithSession (s : CreateRace) (sid : String) : CreateRace :=
  if s.registered.contains sid then s
  else { s with pendingCreates := s.pendingCreates ++ [sid] }

/-- Completion of the oldest spawned `startWhatsAppSession` call
(lines 43-151): it constructs a Baileys socket with `makeWASocket` and then
runs `sessions.set(sessionId, ...)`, overwriting any existing entry. -/
def completeCreate (s : CreateRace) : CreateRace :=
  match s.pendingCreates with
  | [] => s
  | sid :: rest =>
    { registered :=
        if s.registered.contains sid then s.registered
        else s.registered ++ [sid]
      pendingCreates := rest
      adaptersConstructed := s.adaptersConstructed + 1 }

/-- One scheduler step of the race model. -/
inductive RaceStep where
  | arrive (sid : String)
  | complete
deriving DecidableEq, Repr

/-- Run a schedule of race steps. -/
def runRace (s : CreateRace) : List RaceStep → CreateRace
  | [] => s
  | .arrive sid :: rest => runRace (arriveWithSession s sid) rest
  | .complete :: rest => runRace (completeCreate s) rest

/-- A whatsapp-web.js message as consumed by `src/status-manager.js` and
`src/whatsapp-client.js`: `msg.id.id`, `msg.timestamp` (epoch seconds),
`msg.hasMedia`, `msg.type`, `msg.author` and `msg.from`. -/
structure WMsg where
  idId : String
  timestamp : Int
  hasMedia : Bool
  mtype : String
  author : Option String
  msgFrom : String
deriving DecidableEq, Repr

/-- The value resolved by `msg.downloadMedia()`. -/
structure Media where
  data : String
  mimetype : String
deriving DecidableEq, Repr

/-- A chat as returned by `whatsappClient.getChats()`; `fetchMessages` takes
the `limit` option and may reject (embedded as `Except.error`). -/
structure Chat where
  name : String
  fetchMessages : Nat → Except String (List WMsg)

/-- Oracles for the async whatsapp-web.js client calls: `getChats` and
`getMessageById` (returning `null` embeds as `none`), plus
`msg.downloadMedia()` which may reject. -/
structure WAClient where
  getChats : Except String (List Chat)
  getMessageById : String → Option WMsg
  downloadMedia : WMsg → Except String Media

/-- The status mapping applied in `refreshStatuses`
(`src/status-manager.js` lines 105-112) and in `monitorStatusUpdates`
(`src/whatsapp-client.js` lines 105-112 and 131-138). -/
def toStatusItem (m : WMsg) : SMStatusItem :=
  { id := m.idId
    timestamp := m.timestamp * 1000
    is_video := m.hasMedia && (m.mtype == "video" || m.mtype == "gif")
    thumbnail_url := ""
    media_url := ""
    author := m.author.getD "Unknown" }

/-- Embedding of `refreshStatuses` from `src/status-manager.js`
(lines 96-125). `wsOpen` embeds `ws && ws.readyState === ws.OPEN`. Errors
from the provider calls are rethrown to the caller. -/
def refreshStatuses (wc : WAClient) (wsOpen : Bool) :
    Except String (List OutEvent) := do
  let chats ← wc.getChats
  match chats.find? (fun c => c.name == "Status updates") with
  | some statusChat =>
    let messages ← statusChat.fetchMessages 20
    let statuses :=
      (messages.filter (fun m => m.msgFrom == "status@broadcast")).map
        toStatusItem
    if statuses.length > 0 ∧ wsOpen then
      pure [.smStatusUpdate statuses]
    else pure []
  | none => pure []

/-- Embedding of `downloadAndSendMedia` from `src/status-manager.js`
(lines 128-157): throws `Status not found` when the message is absent,
`Status has no media` when it carries none, rethrows download failures, and
otherwise sends `media_data` when the websocket is open. -/
def downloadAndSendMedia (statusId : String) (wc : WAClient)
    (wsOpen : Bool) : Except String (List OutEvent) := do
  match wc.getMessageById statusId with
  | none => throw "Status not found"
  | some msg =>
    if ¬ msg.hasMedia then throw "Status has no media"
    else do
      let media ← wc.downloadMedia msg
      if wsOpen then
        pure [.mediaData statusId media.data media.mimetype]
      else pure []

/-- Embedding of `generateAndSendThumbnail` from `src/status-manager.js`
(lines 160-192): identical to the media fetch except for the event kind. -/
def generateAndSendThumbnail (statusId : String) (wc : WAClient)
    (wsOpen : Bool) : Except String (List OutEvent) := do
  match wc.getMessageById statusId with
  | none => throw "Status not found"
  | some msg =>
    if ¬ msg.hasMedia then throw "Status has no media"
    else do
      let media ← wc.downloadMedia msg
      if wsOpen then
        pure [.thumbnailData statusId media.data media.mimetype]
      else pure []

/-- Embedding of `handleClientMessage` from `src/status-manager.js`
(lines 2-93). The handler mutates no registry state; it only sends, always
to the requesting websocket. A missing `status_id` field is embedded as the
empty id (the oracle lookup then misses, as `getMessageById(undefined)`
resolves to `null`). -/
def smHandleClientMessage (clients : List (String × Conn))
    (whatsappClients : List (String × WAClient)) (clientId : String)
    (data : ClientMsg) (wsOpen : Bool) : List (String × OutEvent) :=
  match mapGet clients clientId with
  | none => []
  | some client =>
    let wcOpt := match client.sessionId with
      | some sid => mapGet whatsappClients sid
      | none => none
    if data.mtype = "heartbeat" then []
    else if data.mtype = "authenticate" then []
    else if data.mtype = "request_status_updates" then
      match wcOpt with
      | some wc =>
        match refreshStatuses wc wsOpen with
        | .ok evs => evs.map (fun e => (clientId, e))
        | .error m =>
          [(clientId, .error "REFRESH_ERROR"
            ("Error refreshing statuses: " ++ m))]
      | none => [(clientId, .error "NO_CLIENT" "No WhatsApp client available")]
    else if data.mtype = "request_media" then
      match wcOpt with
      | some wc =>
        match downloadAndSendMedia (data.statusId.getD "") wc wsOpen with
        | .ok evs => evs.map (fun e => (clientId, e))
        | .error m =>
          [(clientId, .error "MEDIA_ERROR" ("Error downloading media: " ++ m))]
      | none => [(clientId, .error "NO_CLIENT" "No WhatsApp client available")]
    else if data.mtype = "request_thumbnail" then
      match wcOpt with
      | some wc =>
        match generateAndSendThumbnail (data.statusId.getD "") wc wsOpen with
        | .ok evs => evs.map (fun e => (clientId, e))
        | .error m =>
          [(clientId, .error "THUMBNAIL_ERROR"
            ("Error generating thumbnail: " ++ m))]
      | none => [(clientId, .error "NO_CLIENT" "No WhatsApp client available")]
    else []

/-- Embedding of the initial fetch of `monitorStatusUpdates` from
`src/whatsapp-client.js` (lines 123-148), with its catch branch
(lines 149-159) sending `MONITOR_ERROR` when the websocket is open. -/
def monitorStatusUpdatesInitial (wc : WAClient) (wsOpen : Bool) :
    List OutEvent :=
  let fetched : Except String (List OutEvent) := do
    let chats ← wc.getChats
    match chats.find? (fun c => c.name == "Status updates") with
    | some statusChat =>
      let messages ← statusChat.fetchMessages 20
      let statuses :=
        (messages.filter (fun m => m.msgFrom == "status@broadcast")).map
          toStatusItem
      if statuses.length > 0 ∧ wsOpen then
        pure [.smStatusUpdate statuses]
      else pure []
    | none => pure []
  match fetched with
  | .ok evs => evs
  | .error m =>
    if wsOpen then
      [.error "MONITOR_ERROR" ("Error monitoring statuses: " ++ m)]
    else []

/-! ### Association list lemmas -/

theorem find?_map_mapSetFun (m : List (String × α)) (k : String) (v : α)
    (h : m.any (fun p => p.1 == k) = true) :
    (m.map (fun p => if p.1 == k then (k, v) else p)).find?
      (fun p => p.1 == k) = some (k, v) := by
  induction m with
  | nil => simp at h
  | cons hd tl ih =>
    by_cases hk : (hd.1 == k) = true
    · rw [List.map_cons, if_pos hk]
      simp
    · simp only [List.any_cons, Bool.or_eq_true] at h
      rcases h with h | h
      · exact absurd h hk
      · rw [List.map_cons, if_neg hk]
        have hstep :
            List.find? (fun p => p.1 == k)
              ((hd : String × α) ::
                tl.map (fun p => if p.1 == k then (k, v) else p)) =
            List.find? (fun p => p.1 == k)
              (tl.map (fun p => if p.1 == k then (k, v) else p)) := by
          exact List.find?_cons_of_neg _ hk
        rw [hstep]
        exact ih h

theorem find?_eq_none_of_any_false (m : List (String × α)) (k : String)
    (h : m.any (fun p => p.1 == k) = false) :
    m.find? (fun p => p.1 == k) = none := by
  induction m with
  | nil => rfl
  | cons hd tl ih =>
    simp only [List.any_cons, Bool.or_eq_false_iff] at h
    simp [List.find?, h.1, ih h.2]

theorem mapGet_mapSet_self (m : List (String × α)) (k : String) (v : α) :
    mapGet (mapSet m k v) k = some v := by
  unfold mapGet mapSet
  by_cases h : m.any (fun p => p.1 == k) = true
  · simp only [h, if_true]
    rw [find?_map_mapSetFun m k v h]
    rfl
  · simp only [Bool.not_eq_true] at h
    simp only [h, Bool.false_eq_true, if_false]
    rw [List.find?_append, find?_eq_none_of_any_false m k h]
    simp [List.find?]

theorem mapGet_mapDelete_self (m : List (String × α)) (k : String) :
    mapGet (mapDelete m k) k = none := by
  unfold mapGet mapDelete
  induction m with
  | nil => rfl
  | cons hd tl ih =>
    by_cases h : (hd.1 == k) = true
    · have hbne : (hd.1 != k) = false := by simp [bne, h]
      simp only [List.filter_cons, hbne, Bool.false_eq_true, if_false]
      exact ih
    · have hbne : (hd.1 != k) = true := by simp [bne]; simpa using h
      simp only [List.filter_cons, hbne, if_true]
      have hstep :
          List.find? (fun p => p.1 == k)
            ((hd : String × α) :: tl.filter (fun p => p.1 != k)) =
          List.find? (fun p => p.1 == k)
            (tl.filter (fun p => p.1 != k)) := by
        exact List.find?_cons_of_neg _ h
      rw [hstep]
      exact ih

/-! ### Concrete fixtures used by counterexamples and witnesses -/

/-- Oracles for concrete runs: every media download fails and every contact
lookup throws (both are legal provider behaviours the code catches). -/
def opsC : BaileysOps :=
  { downloadMediaMessage := fun _ => none
    getContactInfo := fun _ => none }

/-- A concrete broadcast status message on the Baileys side. -/
def msgS : BMsg :=
  { key := { id := "m1", remoteJid := some "status@broadcast",
             participant := some "4479@s.whatsapp.net" }
    message := some (.conversation "hello")
    messageTimestamp := some 1700000000 }

/-- A connection record with a live OPEN websocket bound to `sessionS`. -/
def connA : Conn :=
  { ws := some true, sessionId := some "sessionS", lastActivity := 0 }

/-- A server state with one client `clientA` bound to the registered session
`sessionS` over a live OPEN websocket. -/
def stA : ServerState :=
  { clients := [("clientA", connA)]
    sessions := [("sessionS", { adapterId := 0, startTime := 0 })] }

/-- A server state whose only session has zero bound connections. -/
def stOrphan : ServerState :=
  { clients := []
    sessions := [("sessionS", { adapterId := 0, startTime := 0 })] }

/-- The initial race state: no session registered, no creation pending. -/
def race0 : CreateRace :=
  { registered := [], pendingCreates := [], adaptersConstructed := 0 }

/-- The interleaving in which both connection arrivals read the `sessions`
map before either spawned `startWhatsAppSession` call registers its entry. -/
def raceSchedule : List RaceStep :=
  [.arrive "sessionS", .arrive "sessionS", .complete, .complete]

/-! ### Claim C1 -/

/-- C1: the claim says a `statusReceived` provider event on a session is
pushed to every Connection bound to that session with a live transport. In
the code the `messages.upsert` handler looks up `clients.get(sessionId)` —
the `clients` map is keyed by client id, not session id — so with `clientA`
bound to `sessionS` over a live OPEN websocket, the handler sends nothing at
all, while the claim requires a `status_update` push to `clientA`. -/
theorem c1_statusReceived_not_fanned_out :
    liveBoundTo stA "sessionS" = ["clientA"] ∧
    messagesUpsertNotify opsC stA "sessionS" [msgS] 5 = [] :=
  ⟨rfl, rfl⟩

/-! ### Claim C2 -/

/-- C2 counterexample: the session `sessionS` has zero bound connections and
was created at time 0; a reaper sweep three inactivity timeouts later still
leaves it registered, refuting `destroyed by the next sweep`. -/
theorem c2_orphan_session_survives_sweep :
    liveBoundTo stOrphan "sessionS" = [] ∧
    stOrphan.clients = [] ∧
    mapHas (reaperSweep stOrphan (3 * inactiveTimeout)).sessions "sessionS"
      = true :=
  ⟨rfl, rfl, rfl⟩

/-- C2 amended: every reaper sweep removes exactly those Connections whose
transport is absent and whose inactivity exceeds the timeout (a Connection
with a live transport is never removed, regardless of `lastActivityAt` age),
and the sweep never touches the `sessions` map — a Session with zero bound
Connections is never destroyed by the reaper. -/
theorem c2_sweep_removes_stale_connections_only (st : ServerState)
    (now : Int) :
    (reaperSweep st now).sessions = st.sessions ∧
    ∀ p : String × Conn, p ∈ (reaperSweep st now).clients ↔
      p ∈ st.clients ∧
        ¬ (p.2.ws = none ∧ now - p.2.lastActivity > inactiveTimeout) := by
  refine ⟨rfl, fun p => ?_⟩
  simp only [reaperSweep, List.mem_filter, decide_not, Bool.not_eq_true',
    decide_eq_false_iff_not]

/-- C2 amended, instantiated: the stale transportless client of a concrete
state is removed while the live one survives, and the session map is
untouched. -/
theorem c2_sweep_removes_stale_connections_only_witness :
    (reaperSweep stOrphan (3 * inactiveTimeout)).sessions =
      stOrphan.sessions ∧
    (("clientA", connA) ∈ (reaperSweep stA 0).clients ↔
      ("clientA", connA) ∈ stA.clients ∧
        ¬ (("clientA", connA).2.ws = none ∧
          (0 : Int) - ("clientA", connA).2.lastActivity > inactiveTimeout)) :=
  ⟨(c2_sweep_removes_stale_connections_only stOrphan
      (3 * inactiveTimeout)).1,
   (c2_sweep_removes_stale_connections_only stA 0).2 _⟩

/-! ### Claim C3 -/

/-- C3 counterexample: two concurrent connection arrivals carrying the same
unseen `session_id` both observe `sessions.has(sid) = false` and both spawn
`startWhatsAppSession`, so two Baileys sockets are constructed for the one
id — not exactly one as the claim states. -/
theorem c3_double_adapter_construction :
    (runRace race0 raceSchedule).adaptersConstructed = 2 ∧
    (runRace race0 raceSchedule).adaptersConstructed ≠ 1 :=
  ⟨rfl, by decide⟩

/-- C3 amended: session creation is not serialized — every arrival that
observes the id unregistered spawns its own `startWhatsAppSession`, so a
two-arrival race on one unseen id constructs two adapters (the later
`sessions.set` silently overwrites the earlier one). -/
theorem c3_each_racing_arrival_constructs (init : CreateRace) (sid : String)
    (hreg : init.registered.contains sid = false)
    (hpend : init.pendingCreates = []) :
    (runRace init
        [.arrive sid, .arrive sid, .complete, .complete]).adaptersConstructed
      = init.adaptersConstructed + 2 := by
  have hreg' : ¬ sid ∈ init.registered := by
    intro hmem
    rw [show (sid ∈ init.registered) = (sid ∈ init.registered) from rfl] at hmem
    have : init.registered.contains sid = true := by
      simpa using List.elem_eq_true_of_mem hmem
    rw [hreg] at this
    exact Bool.false_ne_true this
  simp [runRace, arriveWithSession, completeCreate, hreg', hpend]

/-- C3 amended, instantiated at the empty initial state. -/
theorem c3_each_racing_arrival_constructs_witness :
    (runRace race0
        [.arrive "sessionS", .arrive "sessionS", .complete,
         .complete]).adaptersConstructed
      = race0.adaptersConstructed + 2 :=
  c3_each_racing_arrival_constructs race0 "sessionS" rfl rfl

/-! ### Claim C4 -/

/-- C4: for a client whose `session_id` is still registered, the sequence
connect → transport-only close → reconnect keeps the Connection record and
its `sessionId` binding across the close (only the websocket reference is
nulled), and both the connect and the reconnect take the resume path: the
client ends bound to the same Session, the `sessions` map is untouched, no
`startWhatsAppSession` is spawned (hence no provider re-pairing), and the
reconnect is acknowledged with `connection_success`. -/
theorem c4_transport_reconnect_resumes_session (st : ServerState)
    (cid sid fresh1 fresh2 : String) (t0 t1 : Int)
    (hs : mapHas st.sessions sid = true) :
    (wsConnection st cid (some sid) fresh1 t0).2.2 = none ∧
    (wsConnection st cid (some sid) fresh1 t0).1.sessions = st.sessions ∧
    mapGet (wsClose (wsConnection st cid (some sid) fresh1 t0).1 cid).clients
      cid = some ⟨none, some sid, t0⟩ ∧
    (wsClose (wsConnection st cid (some sid) fresh1 t0).1 cid).sessions
      = st.sessions ∧
    (wsConnection (wsClose (wsConnection st cid (some sid) fresh1 t0).1 cid)
      cid (some sid) fresh2 t1).2.2 = none ∧
    (wsConnection (wsClose (wsConnection st cid (some sid) fresh1 t0).1 cid)
      cid (some sid) fresh2 t1).1.sessions = st.sessions ∧
    mapGet (wsConnection
      (wsClose (wsConnection st cid (some sid) fresh1 t0).1 cid)
      cid (some sid) fresh2 t1).1.clients cid
      = some ⟨some true, some sid, t1⟩ ∧
    (wsConnection (wsClose (wsConnection st cid (some sid) fresh1 t0).1 cid)
      cid (some sid) fresh2 t1).2.1.head?
      = some (cid, .connectionSuccess sid "Reconnected to existing session")
    := by
  refine ⟨?_, ?_, ?_, ?_, ?_, ?_, ?_, ?_⟩ <;>
    simp [wsConnection, wsClose, hs, mapGet_mapSet_self]

/-- C4, instantiated at the concrete one-client state. -/
theorem c4_transport_reconnect_resumes_session_witness :
    (wsConnection stA "clientB" (some "sessionS") "fresh1" 10).2.2 = none ∧
    (wsConnection stA "clientB" (some "sessionS") "fresh1" 10).1.sessions
      = stA.sessions ∧
    mapGet (wsClose
      (wsConnection stA "clientB" (some "sessionS") "fresh1" 10).1
      "clientB").clients "clientB" = some ⟨none, some "sessionS", 10⟩ ∧
    (wsClose (wsConnection stA "clientB" (some "sessionS") "fresh1" 10).1
      "clientB").sessions = stA.sessions ∧
    (wsConnection (wsClose
      (wsConnection stA "clientB" (some "sessionS") "fresh1" 10).1 "clientB")
      "clientB" (some "sessionS") "fresh2" 20).2.2 = none ∧
    (wsConnection (wsClose
      (wsConnection stA "clientB" (some "sessionS") "fresh1" 10).1 "clientB")
      "clientB" (some "sessionS") "fresh2" 20).1.sessions = stA.sessions ∧
    mapGet (wsConnection (wsClose
      (wsConnection stA "clientB" (some "sessionS") "fresh1" 10).1 "clientB")
      "clientB" (some "sessionS") "fresh2" 20).1.clients "clientB"
      = some ⟨some true, some "sessionS", 20⟩ ∧
    (wsConnection (wsClose
      (wsConnection stA "clientB" (some "sessionS") "fresh1" 10).1 "clientB")
      "clientB" (some "sessionS") "fresh2" 20).2.1.head?
      = some ("clientB",
          .connectionSuccess "sessionS" "Reconnected to existing session") :=
  c4_transport_reconnect_resumes_session stA "clientB" "sessionS"
    "fresh1" "fresh2" 10 20 rfl

/-! ### Claim C5 -/

/-- C5 counterexample: from the one-client bound state, the first
`disconnect` is acknowledged with `disconnected`, but the second `disconnect`
finds no socket (the session was deleted) and sends nothing at all — not a
second `disconnected` acknowledgment as the claim requires. -/
theorem c5_second_disconnect_unacknowledged :
    (handleClientMessage stA "clientA" ⟨"disconnect", none⟩).2
      = [("clientA", .disconnected "Logged out from WhatsApp")] ∧
    (handleClientMessage
        (handleClientMessage stA "clientA" ⟨"disconnect", none⟩).1
        "clientA" ⟨"disconnect", none⟩).2 = [] :=
  ⟨rfl, rfl⟩

/-- C5 amended: for a connection bound to a live session, the first
`disconnect` deletes the session and is acknowledged with `disconnected`;
a second `disconnect` produces no reply of any kind (no acknowledgment and
no error) and leaves the state unchanged; a subsequent
`request_status_updates` fails with the `NO_SESSION` error code. -/
theorem c5_disconnect_once_acks_then_silent (st : ServerState)
    (cid sid : String) (client : Conn) (sd : SessionRec)
    (hc : mapGet st.clients cid = some client)
    (hsid : client.sessionId = some sid)
    (hs : mapGet st.sessions sid = some sd) :
    handleClientMessage st cid ⟨"disconnect", none⟩
      = ({ st with sessions := mapDelete st.sessions sid },
         [(cid, .disconnected "Logged out from WhatsApp")]) ∧
    handleClientMessage { st with sessions := mapDelete st.sessions sid } cid
        ⟨"disconnect", none⟩
      = ({ st with sessions := mapDelete st.sessions sid }, []) ∧
    handleClientMessage { st with sessions := mapDelete st.sessions sid } cid
        ⟨"request_status_updates", none⟩
      = ({ st with sessions := mapDelete st.sessions sid },
         [(cid, .error "NO_SESSION" "No active WhatsApp session")]) := by
  refine ⟨?_, ?_, ?_⟩ <;>
    simp [handleClientMessage, hc, hsid, hs, mapGet_mapDelete_self]

/-- C5 amended, instantiated at the concrete one-client state. -/
theorem c5_disconnect_once_acks_then_silent_witness :
    handleClientMessage stA "clientA" ⟨"disconnect", none⟩
      = ({ stA with sessions := mapDelete stA.sessions "sessionS" },
         [("clientA", .disconnected "Logged out from WhatsApp")]) ∧
    handleClientMessage
        { stA with sessions := mapDelete stA.sessions "sessionS" } "clientA"
        ⟨"disconnect", none⟩
      = ({ stA with sessions := mapDelete stA.sessions "sessionS" }, []) ∧
    handleClientMessage
        { stA with sessions := mapDelete stA.sessions "sessionS" } "clientA"
        ⟨"request_status_updates", none⟩
      = ({ stA with sessions := mapDelete stA.sessions "sessionS" },
         [("clientA", .error "NO_SESSION" "No active WhatsApp session")]) :=
  c5_disconnect_once_acks_then_silent stA "clientA" "sessionS" connA
    ⟨0, 0⟩ rfl rfl rfl

/-! ### Claim C6 -/

theorem handleClientMessage_sends_to_requester (st : ServerState)
    (cid : String) (d : ClientMsg) :
    (((handleClientMessage st cid d).2.map Prod.fst).all
      (fun c => c == cid)) = true := by
  unfold handleClientMessage fetchCurrentStatuses
  repeat' split
  all_goals simp
  all_goals intro x y h
  all_goals try (split at h)
  all_goals try simp_all
  all_goals tauto

theorem smHandleClientMessage_sends_to_requester
    (clients : List (String × Conn))
    (whatsappClients : List (String × WAClient)) (cid : String)
    (d : ClientMsg) (wsOpen : Bool) :
    (((smHandleClientMessage clients whatsappClients cid d wsOpen).map
      Prod.fst).all (fun c => c == cid)) = true := by
  unfold smHandleClientMessage
  repeat' split
  all_goals simp
  all_goals intro x y h
  all_goals try (split at h)
  all_goals try (split at h)
  all_goals simp_all

/-- C6: every inbound frame is failure-isolated at the router boundary: the
handler never closes the connection, every event it emits — including every
converted per-request failure of both dispatch tables — is addressed to the
requesting client only, and a frame that fails `JSON.parse` is dropped with
exactly one `MESSAGE_ERROR` error reply and no state change. -/
theorem c6_failures_isolated_to_requester (st : ServerState) (cid : String)
    (f : Frame) (now : Int) (clients2 : List (String × Conn))
    (whatsappClients : List (String × WAClient)) (d2 : ClientMsg)
    (wsOpen : Bool) :
    (wsOnMessage st cid f now).2.2 = true ∧
    (((wsOnMessage st cid f now).2.1.map Prod.fst).all
      (fun c => c == cid)) = true ∧
    (((smHandleClientMessage clients2 whatsappClients cid d2 wsOpen).map
      Prod.fst).all (fun c => c == cid)) = true ∧
    (∀ em : String, wsOnMessage st cid (.malformed em) now
      = (st, [(cid, .error "MESSAGE_ERROR"
          ("Error processing message: " ++ em))], true)) := by
  refine ⟨?_, ?_,
    smHandleClientMessage_sends_to_requester clients2 whatsappClients cid
      d2 wsOpen,
    fun em => rfl⟩
  · cases f <;> rfl
  · cases f with
    | malformed em => simp [wsOnMessage]
    | wellFormed d =>
      simpa [wsOnMessage] using
        handleClientMessage_sends_to_requester _ cid d

/-! ### Claim C9 -/

/-- The `lastActivity` refresh the frame handler applies to the requester on
every parsed inbound frame. -/
def touchedState (st : ServerState) (cid : String) (client : Conn)
    (now : Int) : ServerState :=
  { st with clients :=
      mapSet st.clients cid ({ client with lastActivity := now }) }

/-- C9: a well-formed message whose `type` is none of the handled kinds
falls through both dispatch tables: no reply of any kind is sent, the only
state change is the `lastActivity` refresh applied to every parsed inbound
frame, and the connection stays open. -/
theorem c9_unknown_type_silent (st : ServerState) (cid : String)
    (d : ClientMsg) (now : Int) (client : Conn)
    (clients2 : List (String × Conn))
    (whatsappClients : List (String × WAClient)) (cid2 : String)
    (wsOpen : Bool)
    (hc : mapGet st.clients cid = some client)
    (h1 : d.mtype ≠ "heartbeat") (h2 : d.mtype ≠ "authenticate")
    (h3 : d.mtype ≠ "request_status_updates")
    (h4 : d.mtype ≠ "request_media") (h5 : d.mtype ≠ "request_thumbnail")
    (h6 : d.mtype ≠ "disconnect") :
    wsOnMessage st cid (.wellFormed d) now
      = (touchedState st cid client now, [], true) ∧
    smHandleClientMessage clients2 whatsappClients cid2 d wsOpen = [] := by
  constructor
  · simp [wsOnMessage, handleClientMessage, touchedState, hc,
      mapGet_mapSet_self, h1, h3, h4, h6]
  · cases hmg : mapGet clients2 cid2 <;>
      simp [smHandleClientMessage, hmg, h1, h2, h3, h4, h5]

/-- C9, instantiated with the unhandled type `get_profile`. -/
theorem c9_unknown_type_silent_witness :
    wsOnMessage stA "clientA" (.wellFormed ⟨"get_profile", none⟩) 7
      = (touchedState stA "clientA" connA 7, [], true) ∧
    smHandleClientMessage stA.clients [] "clientA"
        ⟨"get_profile", none⟩ true = [] :=
  c9_unknown_type_silent stA "clientA" ⟨"get_profile", none⟩ 7 connA
    stA.clients [] "clientA" true rfl
    (by decide) (by decide) (by decide) (by decide) (by decide) (by decide)

/-! ### Claim C7 -/

/-- A broadcast status message that carries no media. -/
def mediaLessMsg : WMsg :=
  { idId := "statusX", timestamp := 1700000000, hasMedia := false,
    mtype := "chat", author := some "Alice",
    msgFrom := "status@broadcast" }

/-- A whatsapp-web.js client oracle resolving `statusX` to the media-less
message. -/
def wcNoMedia : WAClient :=
  { getChats := .ok []
    getMessageById := fun i =>
      if i == "statusX" then some mediaLessMsg else none
    downloadMedia := fun _ => .error "download rejected" }

/-- The `whatsappClients` map binding `sessionS` to the oracle above. -/
def waClientsC : List (String × WAClient) := [("sessionS", wcNoMedia)]

/-- C7 counterexample: `request_media` for a status whose message exists but
has no media (`statusX`), and likewise for one that no longer exists
(`statusY`, which the oracle resolves to `null`), is answered with the
`MEDIA_ERROR` error code, never with a NotFound code — the delivered event
is exactly the `MEDIA_ERROR` one in both cases. -/
theorem c7_no_media_answered_with_MEDIA_ERROR :
    smHandleClientMessage stA.clients waClientsC "clientA"
        ⟨"request_media", some "statusX"⟩ true
      = [("clientA", .error "MEDIA_ERROR"
          "Error downloading media: Status has no media")] ∧
    smHandleClientMessage stA.clients waClientsC "clientA"
        ⟨"request_media", some "statusY"⟩ true
      = [("clientA", .error "MEDIA_ERROR"
          "Error downloading media: Status not found")] ∧
    ((smHandleClientMessage stA.clients waClientsC "clientA"
        ⟨"request_media", some "statusX"⟩ true).all
      (fun e => match e.2 with
        | .error c _ => c != "NOT_FOUND" && c != "NotFound"
        | _ => true)) = true ∧
    ((smHandleClientMessage stA.clients waClientsC "clientA"
        ⟨"request_media", some "statusY"⟩ true).all
      (fun e => match e.2 with
        | .error c _ => c != "NOT_FOUND" && c != "NotFound"
        | _ => true)) = true :=
  ⟨rfl, rfl, rfl, rfl⟩

/-- C7 amended: `request_media` naming a status whose referenced message
exists but carries no media, and likewise one whose message no longer
exists (`getMessageById` resolves to `null` and `Status not found` is
thrown), fails with an error event carrying the `MEDIA_ERROR` code
delivered only to the requesting client, and the connection is left open by
every frame the server handles. -/
theorem c7_no_media_fails_with_MEDIA_ERROR
    (clients : List (String × Conn))
    (whatsappClients : List (String × WAClient)) (cid sid s s2 : String)
    (client : Conn) (wc : WAClient) (msg : WMsg) (wsOpen : Bool)
    (hc : mapGet clients cid = some client)
    (hsid : client.sessionId = some sid)
    (hwc : mapGet whatsappClients sid = some wc)
    (hmsg : wc.getMessageById s = some msg)
    (hnm : msg.hasMedia = false)
    (hgone : wc.getMessageById s2 = none) :
    smHandleClientMessage clients whatsappClients cid
        ⟨"request_media", some s⟩ wsOpen
      = [(cid, .error "MEDIA_ERROR"
          "Error downloading media: Status has no media")] ∧
    smHandleClientMessage clients whatsappClients cid
        ⟨"request_media", some s2⟩ wsOpen
      = [(cid, .error "MEDIA_ERROR"
          "Error downloading media: Status not found")] ∧
    (∀ (st : ServerState) (f : Frame) (now : Int),
      (wsOnMessage st cid f now).2.2 = true) := by
  refine ⟨?_, ?_, ?_⟩
  · simp [smHandleClientMessage, downloadAndSendMedia, hc, hsid, hwc,
      hmsg, hnm]
  · simp [smHandleClientMessage, downloadAndSendMedia, hc, hsid, hwc,
      hgone]
  · intro st f now
    cases f <;> rfl

/-- C7 amended, instantiated at the concrete oracles: `statusX` exists
without media, `statusY` no longer exists. -/
theorem c7_no_media_fails_with_MEDIA_ERROR_witness :
    smHandleClientMessage stA.clients waClientsC "clientA"
        ⟨"request_media", some "statusX"⟩ false
      = [("clientA", .error "MEDIA_ERROR"
          "Error downloading media: Status has no media")] ∧
    smHandleClientMessage stA.clients waClientsC "clientA"
        ⟨"request_media", some "statusY"⟩ false
      = [("clientA", .error "MEDIA_ERROR"
          "Error downloading media: Status not found")] ∧
    (wsOnMessage stA "clientA" (.malformed "bad json") 9).2.2 = true :=
  ⟨(c7_no_media_fails_with_MEDIA_ERROR stA.clients waClientsC "clientA"
      "sessionS" "statusX" "statusY" connA wcNoMedia mediaLessMsg false
      rfl rfl rfl rfl rfl rfl).1,
   (c7_no_media_fails_with_MEDIA_ERROR stA.clients waClientsC "clientA"
      "sessionS" "statusX" "statusY" connA wcNoMedia mediaLessMsg false
      rfl rfl rfl rfl rfl rfl).2.1,
   (c7_no_media_fails_with_MEDIA_ERROR stA.clients waClientsC "clientA"
      "sessionS" "statusX" "statusY" connA wcNoMedia mediaLessMsg false
      rfl rfl rfl rfl rfl rfl).2.2 stA (.malformed "bad json") 9⟩

/-! ### Claim C8 -/

/-- C8 counterexample: `processStatusMessage` of `src/server.js` stores a JS
`Date` object in the `timestamp` field (`new Date(msg.messageTimestamp *
1000)`), which `JSON.stringify` serializes as an ISO-8601 string — not an
integer count of epoch milliseconds as the claimed wire shape requires. -/
theorem c8_server_item_timestamp_is_date :
    (processStatusMessage opsC msgS 5).timestamp
      = .isoDateString 1700000000000 ∧
    isEpochMillisInt (processStatusMessage opsC msgS 5).timestamp = false :=
  ⟨rfl, rfl⟩

/-- C8 amended: status items produced by the whatsapp-web.js mapping carry
`timestamp` as the integer `msg.timestamp * 1000` of epoch milliseconds (in
the spec's six-field wire shape), while every item built by the server-side
`processStatusMessage` instead carries a `Date` — serialized as an ISO
string, never an integer — and an extra `content` field. -/
theorem c8_timestamp_shapes (m : WMsg) (ops : BaileysOps) (msg : BMsg)
    (now : Int) :
    (toStatusItem m).timestamp = m.timestamp * 1000 ∧
    (processStatusMessage ops msg now).timestamp
      = serverTimestamp msg.messageTimestamp now ∧
    isEpochMillisInt (serverTimestamp msg.messageTimestamp now) = false := by
  refine ⟨rfl, rfl, ?_⟩
  rcases msg.messageTimestamp with _ | t <;> rfl

/-! ### Claim C10 -/

/-- C10: with a live session, when the provider fetch succeeds but yields
zero broadcast status messages — or no chat named `Status updates` exists —
neither `refreshStatuses` nor the initial fetch of `monitorStatusUpdates`
sends any event at all: no `status_update` and no error. A `status_update`
is sent only from the non-empty branch. -/
theorem c10_empty_fetch_sends_nothing (wc wc2 : WAClient)
    (wsOpen wsOpen2 : Bool) (chats chats2 : List Chat) (chat : Chat)
    (messages : List WMsg)
    (hg : wc.getChats = .ok chats)
    (hfind : chats.find? (fun c => c.name == "Status updates") = some chat)
    (hf : chat.fetchMessages 20 = .ok messages)
    (hempty : messages.filter (fun m => m.msgFrom == "status@broadcast")
      = [])
    (hg2 : wc2.getChats = .ok chats2)
    (hfind2 : chats2.find? (fun c => c.name == "Status updates") = none) :
    refreshStatuses wc wsOpen = .ok [] ∧
    monitorStatusUpdatesInitial wc wsOpen = [] ∧
    refreshStatuses wc2 wsOpen2 = .ok [] ∧
    monitorStatusUpdatesInitial wc2 wsOpen2 = [] := by
  refine ⟨?_, ?_, ?_, ?_⟩ <;>
    simp [refreshStatuses, monitorStatusUpdatesInitial, hg, hfind, hf,
      hempty, hg2, hfind2, Except.bind, bind, pure, Except.pure]

/-- A status chat whose fetch returns no messages. -/
def emptyStatusChat : Chat :=
  { name := "Status updates", fetchMessages := fun _ => .ok [] }

/-- A client whose status chat exists but holds zero messages. -/
def wcEmpty : WAClient :=
  { getChats := .ok [emptyStatusChat]
    getMessageById := fun _ => none
    downloadMedia := fun _ => .error "download rejected" }

/-- A client with no chat named `Status updates` at all. -/
def wcNoChat : WAClient :=
  { getChats := .ok []
    getMessageById := fun _ => none
    downloadMedia := fun _ => .error "download rejected" }

/-- C10, instantiated at the empty-chat and no-chat oracles. -/
theorem c10_empty_fetch_sends_nothing_witness :
    refreshStatuses wcEmpty true = .ok [] ∧
    monitorStatusUpdatesInitial wcEmpty true = [] ∧
    refreshStatuses wcNoChat true = .ok [] ∧
    monitorStatusUpdatesInitial wcNoChat true = [] :=
  c10_empty_fetch_sends_nothing wcEmpty wcNoChat true true
    [emptyStatusChat] [] emptyStatusChat [] rfl rfl rfl rfl rfl rfl

end WL
